import Mathlib

set_option linter.unusedVariables false

/-!
Verification of the WAHA gateway (FastAPI + WahaClient) against its
specification.  The Python source is shallowly embedded: each upstream HTTP
interaction is represented by the answer the external WAHA server gives
(a network failure, or a status code with a parsed body), every client and
controller method becomes a total Lean function over that answer, and
Python exceptions become the error side of Except.
-/

/-- A Python byte string: each element is one byte (0..255). -/
abbrev ByteStr := List Nat

/-- A string-valued JSON object / Python dict, as the controllers consume it
with tolerant .get extraction. -/
abbrev StrDict := List (String × String)

/-- Python dict .get(key, default): the value stored under the first matching
key, or the default when the key is absent. -/
def dictGetD (d : StrDict) (k dflt : String) : String :=
  match d.find? (fun p => p.1 == k) with
  | some p => p.2
  | none => dflt

/-- The exceptions the embedded code can raise. -/
inductive PyError where
  /-- raise ValueError(...) -/
  | valueError : PyError
  /-- pydantic ValidationError: a required field was not supplied. -/
  | validationError : PyError
  /-- AttributeError: attribute access on an object lacking the attribute. -/
  | attributeError : PyError
  /-- httpx HTTPStatusError from response.raise_for_status() on a non-2xx. -/
  | httpStatusError (statusCode : Nat) : PyError
  /-- httpx transport/network error: the request itself failed. -/
  | netError : PyError
  deriving Repr, DecidableEq

/-- What the upstream WAHA server does for one HTTP call issued by the
client: either the request fails at the transport level, or the server
replies with a status code and a body (already parsed at the type the
endpoint returns). -/
inductive UpstreamAnswer (β : Type) where
  | netFail : UpstreamAnswer β
  | reply (statusCode : Nat) (body : β) : UpstreamAnswer β
  deriving Repr, DecidableEq

/-- httpx Response.is_success: a 2xx status code.  raise_for_status raises
for every other status. -/
def is2xx (st : Nat) : Bool := 200 ≤ st && st < 300

/-- The shared response tail of the client methods
(waha_client.py: response.raise_for_status(); return response.json()):
propagate transport failures, raise HTTPStatusError on a non-2xx status,
and return the parsed body on success. -/
def WahaClient.raiseForStatusJson {β : Type} (ans : UpstreamAnswer β) :
    Except PyError β :=
  match ans with
  | .netFail => .error .netError
  | .reply st body =>
      if is2xx st then .ok body else .error (.httpStatusError st)

/-- waha_client.py WahaSession (pydantic): its declared fields.  config
defaults to the empty dict, the timestamps to None.  Note that the model
has no field named session. -/
structure WahaSession where
  id : String
  name : String
  status : String
  config : StrDict
  created_at : Option Nat
  updated_at : Option Nat
  deriving Repr, DecidableEq

/-- waha_client.py WahaGroup (pydantic). -/
structure WahaGroup where
  id : String
  name : String
  description : Option String
  participants : List String
  created_at : Option Nat
  deriving Repr, DecidableEq

/-- waha_client.py lines 218-233, WahaClient.ping: the whole body sits in a
try/except that returns False on any exception, True only when the GET
succeeds and raise_for_status passes. -/
def WahaClient.ping (ans : UpstreamAnswer Unit) : Bool :=
  match ans with
  | .netFail => false
  | .reply st _ => is2xx st

/-- waha_client.py lines 307-329, WahaClient.get_session_status: a 404 reply
is checked before raise_for_status and yields None; every other non-2xx
raises; a 2xx body parses into a WahaSession. -/
def WahaClient.get_session_status (ans : UpstreamAnswer WahaSession)
    (session_name : String) : Except PyError (Option WahaSession) :=
  match ans with
  | .netFail => .error .netError
  | .reply st body =>
      if st == 404 then .ok none
      else if is2xx st then .ok (some body)
      else .error (.httpStatusError st)

/-- waha_client.py lines 401-438, WahaClient.send_message, response side:
POST the payload, raise_for_status, return response.json().  The response
body is a JSON object consumed as a dict by the controller. -/
def WahaClient.send_message (ans : UpstreamAnswer StrDict)
    (session_name chat_id message : String)
    (quoted_message_id : Option String) : Except PyError StrDict :=
  WahaClient.raiseForStatusJson ans

/-- waha_client.py lines 546-571, WahaClient.download_file: GET the message
download endpoint, raise_for_status, return response.content (raw bytes). -/
def WahaClient.download_file (ans : UpstreamAnswer ByteStr)
    (session_name message_id : String) : Except PyError ByteStr :=
  WahaClient.raiseForStatusJson ans

/-- waha_client.py lines 627-648, WahaClient.get_groups: GET the group list,
raise_for_status, parse the body into WahaGroup records. -/
def WahaClient.get_groups (ans : UpstreamAnswer (List WahaGroup))
    (session_name : String) : Except PyError (List WahaGroup) :=
  WahaClient.raiseForStatusJson ans

/-- Python truthiness of an optional byte string: None is falsy and so is
the empty byte string. -/
def pyTruthyBytes : Option ByteStr → Bool
  | none => false
  | some b => !b.isEmpty

/-- Python truthiness of an optional string: None and the empty string are
falsy. -/
def pyTruthyStr : Option String → Bool
  | none => false
  | some s => !(s == "")

/-- Python x or y for an optional string: y when x is None or empty. -/
def pyOrStr (x : Option String) (y : String) : String :=
  match x with
  | none => y
  | some s => if s == "" then y else s

/-- The arguments of WahaClient.send_file (waha_client.py lines 440-449).
A file path is kept abstract as a string; pathlib Path objects are always
truthy, so an Option models the path argument exactly. -/
structure SendFileArgs where
  session_name : String
  chat_id : String
  file_path : Option String
  file_content : Option ByteStr
  file_url : Option String
  caption : String
  filename : Option String

/-- One HTTP request WahaClient.send_file can issue to the send-file
endpoint: a multipart form-data POST carrying the file bytes, or a JSON
POST carrying a URL. -/
inductive FileRequest where
  /-- files is a single part under fileField, named filename, holding
  content; formData is the accompanying form dictionary. -/
  | multipart (fileField : String) (filename : String) (content : ByteStr)
      (formData : StrDict) : FileRequest
  /-- json payload with chatId, url, caption and filename fields. -/
  | jsonUrl (chatId : String) (url : String) (caption : String)
      (filename : Option String) : FileRequest
  deriving Repr, DecidableEq

/-- waha_client.py lines 468-470: if file_path is given (a Path is always
truthy), the file is opened and its bytes replace file_content.  The
filesystem is the function fs from paths to contents. -/
def send_file_effective_content (fs : String → ByteStr)
    (args : SendFileArgs) : Option ByteStr :=
  match args.file_path with
  | some p => some (fs p)
  | none => args.file_content

/-- waha_client.py lines 440-502, WahaClient.send_file.  Returns the list
of HTTP requests issued (at most one) together with the outcome.  Branch
selection follows Python truthiness: after the optional file_path read,
a truthy (nonempty) file_content selects the multipart branch; otherwise a
truthy file_url selects the JSON branch; otherwise ValueError is raised
before any HTTP call.  The caption form field is added only when caption
is truthy (line 475), and the file part is named "file" with filename
(filename or "file") (line 473). -/
def WahaClient.send_file (fs : String → ByteStr)
    (ans : UpstreamAnswer StrDict) (args : SendFileArgs) :
    List FileRequest × Except PyError StrDict :=
  let content := send_file_effective_content fs args
  if pyTruthyBytes content then
    ([FileRequest.multipart "file" (pyOrStr args.filename "file")
        (content.getD [])
        ([("chatId", args.chat_id)] ++
          (if args.caption == "" then [] else [("caption", args.caption)]))],
     WahaClient.raiseForStatusJson ans)
  else if pyTruthyStr args.file_url then
    ([FileRequest.jsonUrl args.chat_id (args.file_url.getD "") args.caption
        args.filename],
     WahaClient.raiseForStatusJson ans)
  else
    ([], .error .valueError)

/-- schemas/whatsapp.py SessionResponse: id, name, status required; config
and created_at optional with default None. -/
structure SessionResponse where
  id : String
  name : String
  status : String
  config : Option StrDict
  created_at : Option Nat
  deriving Repr, DecidableEq

/-- schemas/whatsapp.py SessionStatusResponse. -/
structure SessionStatusResponse where
  session : SessionResponse
  connected : Bool
  phone : Option String
  deriving Repr, DecidableEq

/-- schemas/whatsapp.py lines 113-127, MessageResponse: id, chat_id, status
and timestamp are all declared with Field(...), hence all required. -/
structure MessageResponse where
  id : String
  chat_id : String
  status : String
  timestamp : Nat
  deriving Repr, DecidableEq

/-- Pydantic construction of a MessageResponse: succeeds only when every
required field is supplied; a missing timestamp is a ValidationError.
The controllers never pass a timestamp (message_controller.py lines
65-69 construct MessageResponse from id, chat_id and status alone). -/
def MessageResponse.validate (id chat_id status : String)
    (timestamp : Option Nat) : Except PyError MessageResponse :=
  match timestamp with
  | some t => .ok ⟨id, chat_id, status, t⟩
  | none => .error .validationError

/-- schemas/whatsapp.py HealthResponse. -/
structure HealthResponse where
  status : String
  waha_connected : Bool
  timestamp : Nat
  deriving Repr, DecidableEq

/-- The dict a connection check returns: a single connected key
(session_controller.py line 213). -/
structure ConnectedDict where
  connected : Bool
  deriving Repr, DecidableEq

/-- CPython str.upper restricted to ASCII letters; the session status
values this code compares are the ASCII enum-like strings STARTED,
STOPPED, SCANNING, CONNECTED, READY, NOT_FOUND. -/
def pyUpperChar (c : Char) : Char :=
  if 'a' ≤ c ∧ c ≤ 'z' then Char.ofNat (c.toNat - 32) else c

/-- str.upper over a whole string (ASCII model). -/
def pyUpper (s : String) : String := String.mk (s.data.map pyUpperChar)

/-- session_controller.py lines 85-123, SessionController.get_session_status:
on a None from the client (upstream 404) build the synthetic NOT_FOUND
response; otherwise mirror the session and derive connected by the
uppercase status being one of STARTED, CONNECTED, READY. -/
def SessionController.get_session_status (ans : UpstreamAnswer WahaSession)
    (session_name : String) : Except PyError SessionStatusResponse :=
  match WahaClient.get_session_status ans session_name with
  | .error e => .error e
  | .ok none =>
      .ok ⟨⟨session_name, session_name, "NOT_FOUND", none, none⟩, false, none⟩
  | .ok (some s) =>
      .ok ⟨⟨s.id, s.name, s.status, some s.config, s.created_at⟩,
           decide (pyUpper s.status ∈ ["STARTED", "CONNECTED", "READY"]),
           none⟩

/-- session_controller.py lines 179-192, SessionController.list_sessions:
calls the client status operation with the empty session name; on None
returns the empty list; otherwise evaluates sessions.session, an
attribute the WahaSession pydantic model does not declare, which raises
AttributeError. -/
def SessionController.list_sessions (ans : UpstreamAnswer WahaSession) :
    Except PyError (List SessionResponse) :=
  match WahaClient.get_session_status ans "" with
  | .error e => .error e
  | .ok none => .ok []
  | .ok (some _) => .error .attributeError

/-- session_controller.py lines 194-213, SessionController.check_connection:
connected is session is not None and session.status.upper() in
[STARTED, CONNECTED, READY]. -/
def SessionController.check_connection (ans : UpstreamAnswer WahaSession)
    (session_name : String) : Except PyError ConnectedDict :=
  match WahaClient.get_session_status ans session_name with
  | .error e => .error e
  | .ok sess =>
      .ok ⟨match sess with
           | some s => decide (pyUpper s.status ∈ ["STARTED", "CONNECTED", "READY"])
           | none => false⟩

/-- message_controller.py lines 39-69, MessageController.send_message:
forward to the client, then build a MessageResponse from
result.get("id", ""), the chat_id argument and result.get("status",
"sent").  No timestamp keyword is passed, so pydantic validates the
construction with timestamp absent. -/
def MessageController.send_message (ans : UpstreamAnswer StrDict)
    (session_name chat_id message : String)
    (quoted_message_id : Option String) : Except PyError MessageResponse :=
  match WahaClient.send_message ans session_name chat_id message
      quoted_message_id with
  | .error e => .error e
  | .ok result =>
      MessageResponse.validate (dictGetD result "id" "") chat_id
        (dictGetD result "status" "sent") none

/-- One upstream call a group controller method can perform.  The
WahaClient exposes no per-group-id endpoint; the second constructor exists
so that performing-only-the-list-fetch is a statement, not a tautology of
the trace type. -/
inductive GroupApiCall where
  | listGroups (session_name : String) : GroupApiCall
  | groupById (session_name group_id : String) : GroupApiCall
  deriving Repr, DecidableEq

/-- The dict GroupController.get_group_details returns: either the matched
group record (group_controller.py lines 144-150) or the sentinel
error dict (line 151). -/
inductive GroupDetails where
  | record (id name : String) (description : Option String)
      (participants : List String) (created_at : Option Nat) : GroupDetails
  | errorDict (msg : String) : GroupDetails
  deriving Repr, DecidableEq

/-- group_controller.py lines 125-151, GroupController.get_group_details:
fetch the full group list (one upstream call), linearly scan for the
first group whose id matches, and return the sentinel error dict when
none does. -/
def GroupController.get_group_details (ans : UpstreamAnswer (List WahaGroup))
    (session_name group_id : String) :
    List GroupApiCall × Except PyError GroupDetails :=
  ([GroupApiCall.listGroups session_name],
   match WahaClient.get_groups ans session_name with
   | .error e => .error e
   | .ok groups =>
       match groups.find? (fun g => g.id == group_id) with
       | some g =>
           .ok (.record g.id g.name g.description g.participants g.created_at)
       | none => .ok (.errorDict "Group not found"))

/-- The base64 alphabet of RFC 4648, as CPython base64.b64encode uses it. -/
def b64chars : List Char :=
  "ABCDEFGHIJKLMNOPQRSTUVWXYZabcdefghijklmnopqrstuvwxyz0123456789+/".data

/-- The character encoding one six-bit group. -/
def sextetChar (n : Nat) : Char := b64chars.getD n 'A'

/-- The six-bit value of one base64 character, decoded by alphabet range;
none for a character outside the alphabet. -/
def sextetOfChar (c : Char) : Option Nat :=
  if 'A' ≤ c ∧ c ≤ 'Z' then some (c.toNat - 65)
  else if 'a' ≤ c ∧ c ≤ 'z' then some (c.toNat - 97 + 26)
  else if '0' ≤ c ∧ c ≤ '9' then some (c.toNat - 48 + 52)
  else if c = '+' then some 62
  else if c = '/' then some 63
  else none

/-- base64 encoding of a byte string, three bytes to four characters with
RFC 4648 padding (the encoding base64.b64encode performs). -/
def b64encodeChars : ByteStr → List Char
  | [] => []
  | [a] => [sextetChar (a / 4), sextetChar (a % 4 * 16), '=', '=']
  | [a, b] => [sextetChar (a / 4), sextetChar (a % 4 * 16 + b / 16),
      sextetChar (b % 16 * 4), '=']
  | a :: b :: c :: rest =>
      sextetChar (a / 4) :: sextetChar (a % 4 * 16 + b / 16) ::
      sextetChar (b % 16 * 4 + c / 64) :: sextetChar (c % 64) ::
      b64encodeChars rest

/-- base64 decoding: four characters to three bytes, with padding accepted
only at the very end; none on a malformed input. -/
def b64decodeChars : List Char → Option ByteStr
  | [] => some []
  | c1 :: c2 :: c3 :: c4 :: rest =>
      match sextetOfChar c1, sextetOfChar c2 with
      | some s1, some s2 =>
          if c3 = '=' then
            if c4 = '=' ∧ rest = [] then some [s1 * 4 + s2 / 16] else none
          else
            match sextetOfChar c3 with
            | some s3 =>
                if c4 = '=' then
                  if rest = [] then
                    some [s1 * 4 + s2 / 16, s2 % 16 * 16 + s3 / 4]
                  else none
                else
                  match sextetOfChar c4 with
                  | some s4 =>
                      match b64decodeChars rest with
                      | some bs =>
                          some ((s1 * 4 + s2 / 16) :: (s2 % 16 * 16 + s3 / 4) ::
                            (s3 % 4 * 64 + s4) :: bs)
                      | none => none
                  | none => none
            | none => none
      | _, _ => none
  | _ => none

/-- base64.b64encode(bytes).decode("utf-8"): the encoded text. -/
def b64encodeStr (bs : ByteStr) : String := String.mk (b64encodeChars bs)

/-- base64.b64decode of a text, as a byte string. -/
def b64decodeStr (s : String) : Option ByteStr := b64decodeChars s.data

/-- The dict FileController.download_file returns (file_controller.py lines
210-213): the base64 text of the bytes under file, the requested id under
message_id. -/
structure DownloadResult where
  file : String
  message_id : String
  deriving Repr, DecidableEq

/-- file_controller.py lines 190-213, FileController.download_file: fetch
the raw bytes through the client and re-encode them as base64 text. -/
def FileController.download_file (ans : UpstreamAnswer ByteStr)
    (session_name message_id : String) : Except PyError DownloadResult :=
  match WahaClient.download_file ans session_name message_id with
  | .error e => .error e
  | .ok bytes => .ok ⟨b64encodeStr bytes, message_id⟩

/-- A reply of one FastAPI route: a success value with its HTTP status, or
an HTTPException with its status and the raised error as detail. -/
inductive RouteReply (α : Type) where
  | ok (statusCode : Nat) (val : α) : RouteReply α
  | httpError (statusCode : Nat) (detail : PyError) : RouteReply α
  deriving Repr, DecidableEq

/-- routes/messages.py lines 37-66, POST /messages/send: call the message
controller and convert any exception into HTTPException(500); a
successful value is returned with the default status 200. -/
def routes.messages.send_message (ans : UpstreamAnswer StrDict)
    (session_name chat_id message : String)
    (quoted_message_id : Option String) : RouteReply MessageResponse :=
  match MessageController.send_message ans session_name chat_id message
      quoted_message_id with
  | .ok r => .ok 200 r
  | .error e => .httpError 500 e

/-- routes/health.py lines 27-42, GET /health: ping the upstream, derive
healthy or degraded, and always answer 200 with a HealthResponse stamped
at the current time.  No operation in the handler can raise, so the
embedding is a total function into the success side. -/
def routes.health.health_check (ans : UpstreamAnswer Unit) (now : Nat) :
    RouteReply HealthResponse :=
  let waha_connected := WahaClient.ping ans
  .ok 200 ⟨if waha_connected then "healthy" else "degraded",
    waha_connected, now⟩

/-- Decoding a base64 character undoes encoding, for every six-bit value. -/
theorem sextetOfChar_sextetChar :
    ∀ n : Nat, n < 64 → sextetOfChar (sextetChar n) = some n := by decide

/-- No alphabet character is the padding character. -/
theorem sextetChar_ne_pad : ∀ n : Nat, n < 64 → sextetChar n ≠ '=' := by decide

/-- Round trip of the byte-level base64 coder: decoding an encoded byte
string gives back exactly the bytes, for every list of genuine bytes. -/
theorem b64decodeChars_b64encodeChars (bs : ByteStr)
    (h : ∀ x ∈ bs, x < 256) :
    b64decodeChars (b64encodeChars bs) = some bs := by
  induction bs using b64encodeChars.induct with
  | case1 => rfl
  | case2 a =>
      have ha : a < 256 := h a (by simp)
      simp only [b64encodeChars, b64decodeChars,
        sextetOfChar_sextetChar (a / 4) (by omega),
        sextetOfChar_sextetChar (a % 4 * 16) (by omega)]
      simp
      omega
  | case3 a b =>
      have ha : a < 256 := h a (by simp)
      have hb : b < 256 := h b (by simp)
      simp only [b64encodeChars, b64decodeChars,
        sextetOfChar_sextetChar (a / 4) (by omega),
        sextetOfChar_sextetChar (a % 4 * 16 + b / 16) (by omega),
        sextetOfChar_sextetChar (b % 16 * 4) (by omega)]
      simp [sextetChar_ne_pad (b % 16 * 4) (by omega)]
      omega
  | case4 a b c rest ih =>
      have ha : a < 256 := h a (by simp)
      have hb : b < 256 := h b (by simp)
      have hc : c < 256 := h c (by simp)
      have hrest : ∀ x ∈ rest, x < 256 := by
        intro x hx
        exact h x (by simp [hx])
      simp only [b64encodeChars, b64decodeChars,
        sextetOfChar_sextetChar (a / 4) (by omega),
        sextetOfChar_sextetChar (a % 4 * 16 + b / 16) (by omega),
        sextetOfChar_sextetChar (b % 16 * 4 + c / 64) (by omega),
        sextetOfChar_sextetChar (c % 64) (by omega),
        ih hrest]
      simp [sextetChar_ne_pad (b % 16 * 4 + c / 64) (by omega),
        sextetChar_ne_pad (c % 64) (by omega)]
      omega

/-- Claim C1: with the upstream send-text call answering 200 with the JSON
object holding id m1 and status sent, the send-message route does NOT
return a 200 MessageResponse: the controller builds MessageResponse
without the required timestamp field, pydantic validation fails, and the
route converts the exception into HTTPException 500 — for every session
name, chat id and message text. -/
theorem send_message_upstream_sent_returns_500
    (session_name chat_id message : String) :
    routes.messages.send_message
        (.reply 200 [("id", "m1"), ("status", "sent")])
        session_name chat_id message none =
      .httpError 500 .validationError := rfl

/-- Claim C2: list_sessions does query the status operation with the empty
session name and returns the empty list when the upstream answers 404;
but when a session IS found, evaluating sessions.session on the returned
WahaSession (which has no such attribute) raises AttributeError instead
of producing a one-element list. -/
theorem list_sessions_found_branch_raises :
    SessionController.list_sessions
        (.reply 200 ⟨"default", "default", "STARTED", [], none, none⟩) =
      .error .attributeError ∧
    SessionController.list_sessions
        (.reply 404 ⟨"", "", "", [], none, none⟩) = .ok [] :=
  ⟨rfl, rfl⟩

/-- Claim C3: whenever the upstream status endpoint answers 404 (whatever
body it carries), the session controller returns — never raises — the
synthetic response whose session record has id and name equal to the
requested name and status NOT_FOUND, with connected false and phone
null. -/
theorem get_session_status_404_synthetic (session_name : String)
    (body : WahaSession) :
    SessionController.get_session_status (.reply 404 body) session_name =
      .ok ⟨⟨session_name, session_name, "NOT_FOUND", none, none⟩,
        false, none⟩ := rfl

/-- Claim C4: whenever the upstream status call itself succeeds (yielding a
found session or an absence), check_connection answers a connected
dictionary whose boolean is true exactly when a session was found and its
status, uppercased, is STARTED, CONNECTED or READY; it is false for every
other status value and when the session is absent. -/
theorem check_connection_connected_iff (ans : UpstreamAnswer WahaSession)
    (session_name : String) (r : Option WahaSession)
    (h : WahaClient.get_session_status ans session_name = .ok r) :
    ∃ b : Bool,
      SessionController.check_connection ans session_name = .ok ⟨b⟩ ∧
      (b = true ↔ ∃ s, r = some s ∧
        (pyUpper s.status = "STARTED" ∨ pyUpper s.status = "CONNECTED" ∨
         pyUpper s.status = "READY")) := by
  unfold SessionController.check_connection
  rw [h]
  refine ⟨_, rfl, ?_⟩
  cases r with
  | none => simp
  | some s =>
      simp only [decide_eq_true_eq, List.mem_cons, List.mem_singleton,
        List.not_mem_nil, or_false]
      constructor
      · intro hm
        exact ⟨s, rfl, hm⟩
      · rintro ⟨s2, hs, hdisj⟩
        cases hs
        exact hdisj

/-- Witness for C4 at a concrete found session whose status WORKING is not
a connected status: the boolean is false. -/
theorem check_connection_connected_iff_witness :
    ∃ b : Bool,
      SessionController.check_connection
          (.reply 200 ⟨"s1", "s1", "WORKING", [], none, none⟩) "s1" =
        .ok ⟨b⟩ ∧
      (b = true ↔ ∃ s,
        (some (⟨"s1", "s1", "WORKING", [], none, none⟩ : WahaSession)) =
          some s ∧
        (pyUpper s.status = "STARTED" ∨ pyUpper s.status = "CONNECTED" ∨
         pyUpper s.status = "READY")) :=
  check_connection_connected_iff
    (.reply 200 ⟨"s1", "s1", "WORKING", [], none, none⟩) "s1"
    (some ⟨"s1", "s1", "WORKING", [], none, none⟩) rfl

/-- Claim C5: calling send_file with file_path, file_content and file_url
all absent issues zero upstream HTTP requests and raises ValueError,
whatever the session, chat, caption, filename, filesystem and upstream
behaviour. -/
theorem send_file_no_source_valueerror (fs : String → ByteStr)
    (ans : UpstreamAnswer StrDict) (session_name chat_id caption : String)
    (filename : Option String) :
    WahaClient.send_file fs ans
        ⟨session_name, chat_id, none, none, none, caption, filename⟩ =
      ([], .error .valueError) := rfl

/-- Claim C6: when the upstream group list succeeds and the requested group
id matches no group in it, get_group_details performs exactly the one
list-fetch call (never a per-id lookup) and returns the sentinel error
dict with message Group not found, not an exception. -/
theorem get_group_details_absent_sentinel (st : Nat)
    (groups : List WahaGroup) (session_name group_id : String)
    (h2 : is2xx st = true) (habs : ∀ g ∈ groups, g.id ≠ group_id) :
    GroupController.get_group_details (.reply st groups) session_name
        group_id =
      ([GroupApiCall.listGroups session_name],
       .ok (.errorDict "Group not found")) := by
  have hfind : groups.find? (fun g => g.id == group_id) = none := by
    rw [List.find?_eq_none]
    intro g hg
    simpa using habs g hg
  simp [GroupController.get_group_details, WahaClient.get_groups,
    WahaClient.raiseForStatusJson, h2, hfind]

/-- Witness for C6: a one-group list not containing the requested id. -/
theorem get_group_details_absent_sentinel_witness :
    GroupController.get_group_details
        (.reply 200 [⟨"g1", "Team", none, ["555"], none⟩]) "s1" "g2" =
      ([GroupApiCall.listGroups "s1"],
       .ok (.errorDict "Group not found")) :=
  get_group_details_absent_sentinel 200 [⟨"g1", "Team", none, ["555"], none⟩]
    "s1" "g2" (by decide) (by decide)

/-- Claim C7: for every byte string the upstream download call returns with
a 2xx status, download_file returns a record whose message_id is the
requested id and whose file field base64-decodes back to exactly those
bytes. -/
theorem download_file_base64_roundtrip (st : Nat) (bytes : ByteStr)
    (session_name message_id : String)
    (hb : ∀ x ∈ bytes, x < 256) (h2 : is2xx st = true) :
    ∃ res : DownloadResult,
      FileController.download_file (.reply st bytes) session_name
          message_id = .ok res ∧
      res.message_id = message_id ∧
      b64decodeStr res.file = some bytes := by
  refine ⟨⟨b64encodeStr bytes, message_id⟩, ?_, rfl, ?_⟩
  · simp [FileController.download_file, WahaClient.download_file,
      WahaClient.raiseForStatusJson, h2]
  · simpa [b64decodeStr, b64encodeStr] using
      b64decodeChars_b64encodeChars bytes hb

/-- Witness for C7 at the bytes of the text Hi! downloaded with status
200. -/
theorem download_file_base64_roundtrip_witness :
    ∃ res : DownloadResult,
      FileController.download_file (.reply 200 [72, 105, 33]) "s1" "m9" =
        .ok res ∧
      res.message_id = "m9" ∧
      b64decodeStr res.file = some [72, 105, 33] :=
  download_file_base64_roundtrip 200 [72, 105, 33] "s1" "m9"
    (by decide) (by decide)

/-- Claim C8: for every upstream behaviour of the ping call — network
failure or any status code — the health handler returns (never raises)
status 200, its response carries the current timestamp, and when the
ping fails the body is exactly degraded with waha_connected false. -/
theorem health_check_never_fails (ans : UpstreamAnswer Unit) (now : Nat) :
    ∃ resp : HealthResponse,
      routes.health.health_check ans now = .ok 200 resp ∧
      resp.timestamp = now ∧
      (WahaClient.ping ans = false → resp = ⟨"degraded", false, now⟩) := by
  refine ⟨⟨if WahaClient.ping ans then "healthy" else "degraded",
    WahaClient.ping ans, now⟩, rfl, rfl, ?_⟩
  intro hp
  simp [hp]

/-- Counterexample to C9 as stated: this invocation supplies byte content
(the empty byte string) yet the call issues no multipart request at all —
it makes zero HTTP calls and raises ValueError, because branch selection
tests Python truthiness, not presence. -/
theorem send_file_empty_bytes_not_multipart :
    WahaClient.send_file (fun _ => []) (.reply 200 [])
        ⟨"s1", "123", none, some [], none, "", none⟩ =
      ([], .error .valueError) := rfl

/-- Claim C9 (amended): for every invocation of send_file whose effective
byte content — the supplied file_content, or the bytes read from
file_path when one is given — is non-empty, the one request issued is a
multipart form-data call whose file part has field name file and carries
exactly those bytes, and the caption form field is present if and only if
the caption argument is a non-empty string. -/
theorem send_file_content_multipart (fs : String → ByteStr)
    (ans : UpstreamAnswer StrDict) (args : SendFileArgs) (c : ByteStr)
    (hc : send_file_effective_content fs args = some c) (hne : c ≠ []) :
    ∃ fd : StrDict,
      (WahaClient.send_file fs ans args).1 =
        [FileRequest.multipart "file" (pyOrStr args.filename "file") c fd] ∧
      (("caption" ∈ fd.map Prod.fst) ↔ args.caption ≠ "") := by
  refine ⟨[("chatId", args.chat_id)] ++
    (if args.caption == "" then [] else [("caption", args.caption)]),
    ?_, ?_⟩
  · simp [WahaClient.send_file, hc, pyTruthyBytes, hne]
  · by_cases hcap : args.caption = "" <;> simp [hcap]

/-- Witness for the amended C9: in-memory content of one byte with a
non-empty caption. -/
theorem send_file_content_multipart_witness :
    ∃ fd : StrDict,
      (WahaClient.send_file (fun _ => []) (.reply 200 [])
          ⟨"s1", "123", none, some [7], none, "hey", none⟩).1 =
        [FileRequest.multipart "file" "file" [7] fd] ∧
      (("caption" ∈ fd.map Prod.fst) ↔ ("hey" : String) ≠ "") :=
  send_file_content_multipart (fun _ => []) (.reply 200 [])
    ⟨"s1", "123", none, some [7], none, "hey", none⟩ [7] rfl (by decide)

/-- Claim C10: send_file discriminates its three sources by Python
truthiness, not presence.  With file_content explicitly the empty byte
string and no file_path: with no url it raises ValueError after zero HTTP
calls, with a non-empty url it falls through to the JSON url branch, and
with an empty (still falsy) url it again raises ValueError — an
explicitly supplied empty file is never sent.  And when both file_path
and file_content are supplied, the multipart request carries the bytes
read from the path, silently replacing the supplied content. -/
theorem send_file_truthiness_discrimination (fs : String → ByteStr)
    (ans : UpstreamAnswer StrDict) (session_name chat_id caption : String)
    (filename : Option String) :
    (WahaClient.send_file fs ans
        ⟨session_name, chat_id, none, some [], none, caption, filename⟩ =
      ([], .error .valueError)) ∧
    (∀ u : String, u ≠ "" →
      WahaClient.send_file fs ans
          ⟨session_name, chat_id, none, some [], some u, caption,
            filename⟩ =
        ([FileRequest.jsonUrl chat_id u caption filename],
         WahaClient.raiseForStatusJson ans)) ∧
    (WahaClient.send_file fs ans
        ⟨session_name, chat_id, none, some [], some "", caption,
          filename⟩ =
      ([], .error .valueError)) ∧
    (∀ p : String, ∀ c : ByteStr, fs p ≠ [] →
      (WahaClient.send_file fs ans
          ⟨session_name, chat_id, some p, some c, none, caption,
            filename⟩).1 =
        [FileRequest.multipart "file" (pyOrStr filename "file") (fs p)
          ([("chatId", chat_id)] ++
            (if caption == "" then [] else [("caption", caption)]))]) := by
  refine ⟨rfl, ?_, rfl, ?_⟩
  · intro u hu
    simp [WahaClient.send_file, send_file_effective_content, pyTruthyBytes,
      pyTruthyStr, hu]
  · intro p c hp
    simp [WahaClient.send_file, send_file_effective_content, pyTruthyBytes,
      hp]
